import Mathlib

/-!
Shallow embedding of `src/auto-continue.js` (copilot-auto-continue): an
auto-clicker that watches the DOM for a visible `a.monaco-button.monaco-text-button`
element whose trimmed text is "Continue" and clicks it, rate-limited by a
cooldown, with a Stopped/Running/Paused session controller
(`startAuto` / `pauseAuto` / `stopAuto`), a floating control panel and a
globally exposed stop command (`window.stopAutoContinue`).

The module-level mutable variables (`lastClick`, `intervalId`, `observer`,
`paused`) become fields of a state record `St`; the number of currently
active interval timers and of currently attached mutation-observer
subscriptions is tracked explicitly (`timers`, `observers`) so that
"exactly one trigger source" claims are expressible.  The DOM is a list of
elements in document order; `document.querySelectorAll` is a filter over it.
Time is a `Nat` of milliseconds supplied to each scan invocation
(`Date.now()`).
-/

/-- Embedding of the JavaScript string method `.trim()`: strip leading and
trailing whitespace characters. -/
def jsTrim (s : String) : String :=
  ⟨((s.toList.dropWhile Char.isWhitespace).reverse.dropWhile Char.isWhitespace).reverse⟩

/-- A DOM element as far as this script observes it: tag name, class list,
`offsetParent` (absent means not laid out, i.e. hidden) and `textContent`. -/
structure Elem where
  tag : String
  classes : List String
  offsetParent : Option Unit
  textContent : String
deriving DecidableEq, Repr

/-- `const COOLDOWN_MS = 2500`. -/
def COOLDOWN_MS : Nat := 2500

/-- The mutable state of the script together with the resources it owns.
`lastClick`, `intervalId` and `paused` are the module variables of the
source; `timers` counts currently active `setInterval` timers, `observers`
counts currently attached `MutationObserver` subscriptions;
`startDisabled`, `pauseDisabled`, `stopDisabled` are the `disabled`
properties of the three control-panel buttons; `panelPresent` records
whether the floating panel is in the document; `log` is the activity log
(a timestamp per activation, as in the log-window variant of the script). -/
structure St where
  lastClick : Nat
  intervalId : Option Unit
  paused : Bool
  timers : Nat
  observers : Nat
  startDisabled : Bool
  pauseDisabled : Bool
  stopDisabled : Bool
  panelPresent : Bool
  log : List Nat
deriving DecidableEq, Repr

/-- The Session Controller state projection used throughout the spec:
`Running` iff the interval timer handle is set, otherwise `Paused` iff the
`paused` flag is set, otherwise `Stopped`. -/
inductive SessionState where
  | Stopped
  | Running
  | Paused
deriving DecidableEq, Repr

/-- Session State as determined by the module variables. -/
def sessionState (s : St) : SessionState :=
  if s.intervalId.isSome then .Running
  else if s.paused then .Paused
  else .Stopped

/-- `isVisible(el)`: `el.offsetParent !== null`. -/
def isVisible (el : Elem) : Bool :=
  el.offsetParent.isSome

/-- The structural signature of `document.querySelectorAll('a.monaco-button.monaco-text-button')`:
an anchor element carrying both classes. -/
def matchesSelector (el : Elem) : Bool :=
  el.tag == "a" && el.classes.contains "monaco-button" && el.classes.contains "monaco-text-button"

/-- A qualifying element: selector match, visible, and trimmed text exactly
equal to the expected label `"Continue"`. -/
def qualifies (el : Elem) : Bool :=
  matchesSelector el && (isVisible el && (jsTrim el.textContent == "Continue"))

/-- `clickIfFound()` at time `now` against document `dom`.  Returns the new
state and the element clicked, if any:
guard on `paused`; guard on `now - lastClick < COOLDOWN_MS` (`Nat`
subtraction truncates at zero exactly as the JS comparison behaves for a
clock reading not past `lastClick`); then walk the selector matches in
document order, skip invisible ones, click the first whose trimmed text is
`"Continue"`, set `lastClick = now`, append a log entry, and break. -/
def clickIfFound (s : St) (now : Nat) (dom : List Elem) : St × Option Elem :=
  if s.paused then (s, none)
  else if now - s.lastClick < COOLDOWN_MS then (s, none)
  else
    let buttons := dom.filter matchesSelector
    match buttons.find? (fun btn => isVisible btn && (jsTrim btn.textContent == "Continue")) with
    | some btn => ({ s with lastClick := now, log := s.log ++ [now] }, some btn)
    | none => (s, none)

/-- `updateButtons()`: `startBtn.disabled = !!intervalId`,
`pauseBtn.disabled = !intervalId`, `stopBtn.disabled = !intervalId && !paused`. -/
def updateButtons (s : St) : St :=
  { s with
    startDisabled := s.intervalId.isSome
    pauseDisabled := !s.intervalId.isSome
    stopDisabled := !s.intervalId.isSome && !s.paused }

/-- `startAuto()` with an explicit outcome for `observer.observe(document.body, ...)`:
when `observeOk` is `false` the `observe` call throws (host tree
unavailable).  Returns the state as left behind together with `true` when
the exception propagated out of `startAuto`.  The source order matters: the
guard on `intervalId`, then `paused = false`, then `setInterval` (timer
installed, handle stored), then constructing and attaching the observer,
then `updateButtons` — so on an `observe` failure the timer is already
running and `updateButtons` is never reached. -/
def startAutoE (s : St) (observeOk : Bool) : St × Bool :=
  if s.intervalId.isSome then (s, false)
  else
    let s1 := { s with paused := false, intervalId := some (), timers := s.timers + 1 }
    if observeOk then
      (updateButtons { s1 with observers := s1.observers + 1 }, false)
    else
      (s1, true)

/-- `startAuto()` on the normal path (`observe` succeeds). -/
def startAuto (s : St) : St :=
  (startAutoE s true).1

/-- `pauseAuto()`: no-op unless the interval is set; otherwise clear the
interval, disconnect the observer, null the handle, set `paused`, update
the buttons. -/
def pauseAuto (s : St) : St :=
  if s.intervalId.isSome then
    updateButtons { s with
      timers := s.timers - 1
      observers := s.observers - 1
      intervalId := none
      paused := true }
  else s

/-- `stopAuto()`: if the interval is set, clear it and disconnect the
observer; in all cases reset `paused` to `false` and update the buttons. -/
def stopAuto (s : St) : St :=
  let s1 :=
    if s.intervalId.isSome then
      { s with timers := s.timers - 1, observers := s.observers - 1, intervalId := none }
    else s
  updateButtons { s1 with paused := false }

/-- The close-button handler: `panel.remove()` — nothing else. -/
def closePanel (s : St) : St :=
  { s with panelPresent := false }

/-- `window.stopAutoContinue = stopAuto`: the globally exposed stop command
is the very same `stopAuto`. -/
def windowStopAutoContinue : St → St :=
  stopAuto

/-- The module variables as initialised at the top of the IIFE:
`lastClick = 0`, `intervalId = null`, `paused = false`; no timer or
subscription active yet; freshly created buttons are not disabled; the
panel is not yet appended; the log is empty. -/
def initVars : St :=
  { lastClick := 0
    intervalId := none
    paused := false
    timers := 0
    observers := 0
    startDisabled := false
    pauseDisabled := false
    stopDisabled := false
    panelPresent := false
    log := [] }

/-- The state after the script's own initialisation sequence has run:
`document.body.appendChild(panel); updateButtons(); startAuto();` — note
the script calls `startAuto()` itself, with no operator involved. -/
def scriptInit : St :=
  startAuto (updateButtons { initVars with panelPresent := true })

/-- External stimuli the running script reacts to: an operator pressing
Start / Pause / Stop, a scan trigger (periodic timer tick or mutation
notification — both invoke `clickIfFound` identically) carrying the current
time and document, and the panel close control. -/
inductive Event where
  | start
  | pause
  | stop
  | scan (now : Nat) (dom : List Elem)
  | close
deriving DecidableEq, Repr

/-- One step of the system under an event. -/
def stepE (s : St) : Event → St
  | .start => startAuto s
  | .pause => pauseAuto s
  | .stop => stopAuto s
  | .scan now dom => (clickIfFound s now dom).1
  | .close => closePanel s

/-- Run a sequence of events. -/
def run (s : St) : List Event → St
  | [] => s
  | e :: es => run (stepE s e) es

/-- States reachable from the initialised script by any event sequence. -/
def Reachable (s : St) : Prop :=
  ∃ evs : List Event, run scriptInit evs = s

/-- The activation times recorded along an event sequence: the time of each
scan whose invocation actually clicked an element. -/
def activations (s : St) : List Event → List Nat
  | [] => []
  | e :: es =>
    match e with
    | .scan now dom =>
      if ((clickIfFound s now dom).2).isSome then
        now :: activations (stepE s e) es
      else
        activations (stepE s e) es
    | _ => activations (stepE s e) es

/-- A concrete qualifying element: the Continue button. -/
def contBtn : Elem :=
  { tag := "a"
    classes := ["monaco-button", "monaco-text-button"]
    offsetParent := some ()
    textContent := "Continue" }

/-- A concrete element labelled "Continue Anyway" (same signature, visible). -/
def contAnywayBtn : Elem :=
  { contBtn with textContent := "Continue Anyway" }

/-- A concrete element labelled " continue " (same signature, visible). -/
def spacedContinueBtn : Elem :=
  { contBtn with textContent := " continue " }

/-- The resource-accounting invariant of reachable states: the timer count
and subscription count are each `1` exactly when the interval handle is
set, and the three button `disabled` flags agree with `updateButtons`'s
projection of the current variables. -/
def StInv (s : St) : Prop :=
  s.timers = (if s.intervalId.isSome then 1 else 0) ∧
  s.observers = (if s.intervalId.isSome then 1 else 0) ∧
  s.startDisabled = s.intervalId.isSome ∧
  s.pauseDisabled = (!s.intervalId.isSome) ∧
  s.stopDisabled = (!s.intervalId.isSome && !s.paused)

theorem inv_scriptInit : StInv scriptInit :=
  ⟨rfl, rfl, rfl, rfl, rfl⟩

theorem inv_stepE (s : St) (e : Event) (h : StInv s) : StInv (stepE s e) := by
  obtain ⟨h1, h2, h3, h4, h5⟩ := h
  cases e with
  | start =>
    simp only [stepE, startAuto, startAutoE]
    by_cases hi : s.intervalId.isSome
    · simpa [hi] using ⟨h1, h2, h3, h4, h5⟩
    · simp [hi, StInv, updateButtons, h1, h2]
  | pause =>
    simp only [stepE, pauseAuto]
    by_cases hi : s.intervalId.isSome
    · simp [hi, StInv, updateButtons, h1, h2]
    · simpa [hi] using ⟨h1, h2, h3, h4, h5⟩
  | stop =>
    simp only [stepE, stopAuto]
    by_cases hi : s.intervalId.isSome
    · simp [hi, StInv, updateButtons, h1, h2]
    · simp [hi, StInv, updateButtons, h1, h2, h3, h4]
  | scan now dom =>
    simp only [stepE, clickIfFound]
    by_cases hp : s.paused
    · simpa [hp] using ⟨h1, h2, h3, h4, h5⟩
    · by_cases hc : now - s.lastClick < COOLDOWN_MS
      · simpa [hp, hc] using ⟨h1, h2, h3, h4, h5⟩
      · cases hfind : (dom.filter matchesSelector).find?
            (fun btn => isVisible btn && (jsTrim btn.textContent == "Continue")) with
        | none => simpa [hp, hc, hfind] using ⟨h1, h2, h3, h4, h5⟩
        | some btn => simp [hp, hc, hfind, StInv, h1, h2, h3, h4, h5]
  | close =>
    exact ⟨h1, h2, h3, h4, h5⟩

theorem inv_run (evs : List Event) : ∀ s : St, StInv s → StInv (run s evs) := by
  induction evs with
  | nil => exact fun s h => h
  | cons e es ih => exact fun s h => ih (stepE s e) (inv_stepE s e h)

theorem reachable_inv (s : St) (h : Reachable s) : StInv s := by
  obtain ⟨evs, rfl⟩ := h
  exact inv_run evs scriptInit inv_scriptInit

theorem find?_filter {α : Type} (l : List α) (p q : α → Bool) :
    (l.filter p).find? q = l.find? (fun x => p x && q x) := by
  induction l with
  | nil => rfl
  | cons a t ih =>
    by_cases hp : p a
    · by_cases hq : q a
      · simp [List.filter_cons, List.find?_cons, hp, hq]
      · simp [List.filter_cons, List.find?_cons, hp, hq, ih]
    · simp [List.filter_cons, List.find?_cons, hp, ih]

theorem clickIfFound_snd (s : St) (now : Nat) (dom : List Elem) :
    (clickIfFound s now dom).2 =
      if s.paused then none
      else if now - s.lastClick < COOLDOWN_MS then none
      else dom.find? qualifies := by
  simp only [clickIfFound]
  by_cases hp : s.paused
  · simp [hp]
  · by_cases hc : now - s.lastClick < COOLDOWN_MS
    · simp [hp, hc]
    · have hfq : (dom.filter matchesSelector).find?
          (fun btn => isVisible btn && (jsTrim btn.textContent == "Continue")) =
          dom.find? qualifies := by
        rw [find?_filter]
        rfl
      rw [hfq] at *
      cases hfind : dom.find? qualifies with
      | none => simp [hp, hc, hfind]
      | some btn => simp [hp, hc, hfind]

theorem clickIfFound_lastClick (s : St) (now : Nat) (dom : List Elem) :
    (clickIfFound s now dom).1.lastClick =
      if ((clickIfFound s now dom).2).isSome then now else s.lastClick := by
  simp only [clickIfFound]
  by_cases hp : s.paused
  · simp [hp]
  · by_cases hc : now - s.lastClick < COOLDOWN_MS
    · simp [hp, hc]
    · cases hfind : (dom.filter matchesSelector).find?
          (fun btn => isVisible btn && (jsTrim btn.textContent == "Continue")) with
      | none => simp [hp, hc, hfind]
      | some btn => simp [hp, hc, hfind]

theorem clickIfFound_gate (s : St) (now : Nat) (dom : List Elem)
    (h : ((clickIfFound s now dom).2).isSome) :
    s.lastClick + COOLDOWN_MS ≤ now := by
  rw [clickIfFound_snd] at h
  by_cases hp : s.paused
  · simp [hp] at h
  · by_cases hc : now - s.lastClick < COOLDOWN_MS
    · simp [hp, hc] at h
    · unfold COOLDOWN_MS at hc ⊢
      omega

theorem stepE_lastClick_nonscan (s : St) (e : Event)
    (h : ∀ now dom, e ≠ .scan now dom) : (stepE s e).lastClick = s.lastClick := by
  cases e with
  | start =>
    simp only [stepE, startAuto, startAutoE]
    by_cases hi : s.intervalId.isSome <;> simp [hi, updateButtons]
  | pause =>
    simp only [stepE, pauseAuto]
    by_cases hi : s.intervalId.isSome <;> simp [hi, updateButtons]
  | stop =>
    simp only [stepE, stopAuto]
    by_cases hi : s.intervalId.isSome <;> simp [hi, updateButtons]
  | scan now dom => exact absurd rfl (h now dom)
  | close => rfl

theorem activations_sep (evs : List Event) : ∀ s : St,
    (∀ t ∈ activations s evs, s.lastClick + COOLDOWN_MS ≤ t) ∧
    (activations s evs).Pairwise (fun a b => a + COOLDOWN_MS ≤ b) := by
  induction evs with
  | nil =>
    intro s
    constructor
    · intro t ht
      simp [activations] at ht
    · simp [activations]
  | cons e es ih =>
    intro s
    obtain ⟨ihmem, ihpair⟩ := ih (stepE s e)
    cases e with
    | scan now dom =>
      by_cases hclick : ((clickIfFound s now dom).2).isSome
      · have hgate := clickIfFound_gate s now dom hclick
        have hlast : (stepE s (Event.scan now dom)).lastClick = now := by
          simp only [stepE]
          rw [clickIfFound_lastClick, if_pos hclick]
        rw [hlast] at ihmem
        have hact : activations s (Event.scan now dom :: es) =
            now :: activations (stepE s (Event.scan now dom)) es := by
          simp [activations, hclick]
        rw [hact]
        constructor
        · intro t ht
          rcases List.mem_cons.mp ht with h | h
          · subst h
            exact hgate
          · have h2 := ihmem t h
            omega
        · exact List.pairwise_cons.mpr ⟨fun b hb => by have h2 := ihmem b hb; omega, ihpair⟩
      · have hlast : (stepE s (Event.scan now dom)).lastClick = s.lastClick := by
          simp only [stepE]
          rw [clickIfFound_lastClick, if_neg hclick]
        rw [hlast] at ihmem
        have hact : activations s (Event.scan now dom :: es) =
            activations (stepE s (Event.scan now dom)) es := by
          simp [activations, hclick]
        rw [hact]
        exact ⟨ihmem, ihpair⟩
    | start =>
      have hlast := stepE_lastClick_nonscan s Event.start (by intro now dom; simp)
      rw [hlast] at ihmem
      exact ⟨ihmem, ihpair⟩
    | pause =>
      have hlast := stepE_lastClick_nonscan s Event.pause (by intro now dom; simp)
      rw [hlast] at ihmem
      exact ⟨ihmem, ihpair⟩
    | stop =>
      have hlast := stepE_lastClick_nonscan s Event.stop (by intro now dom; simp)
      rw [hlast] at ihmem
      exact ⟨ihmem, ihpair⟩
    | close =>
      have hlast := stepE_lastClick_nonscan s Event.close (by intro now dom; simp)
      rw [hlast] at ihmem
      exact ⟨ihmem, ihpair⟩

/-- Claim C1: over any event sequence — scan triggers coming from the
periodic timer or from change notifications alike — at most one activation
falls inside any window `[w, w + COOLDOWN_MS)` of the cooldown duration:
the windows are anchored by the `lastClick` timestamp, which
`clickIfFound` updates to the scan time immediately after each successful
activation, so any two recorded activation times are at least
`COOLDOWN_MS` apart and no window of that length holds two of them. -/
theorem cooldown_at_most_one_per_window (s : St) (evs : List Event) (w : Nat) :
    ((activations s evs).countP
      (fun t => decide (w ≤ t) && decide (t < w + COOLDOWN_MS))) ≤ 1 := by
  have hpair := (activations_sep evs s).2
  rw [List.countP_eq_length_filter]
  have hf := hpair.filter (fun t => decide (w ≤ t) && decide (t < w + COOLDOWN_MS))
  cases hl : (activations s evs).filter
      (fun t => decide (w ≤ t) && decide (t < w + COOLDOWN_MS)) with
  | nil => simp [hl]
  | cons a tl =>
    cases tl with
    | nil => simp [hl]
    | cons b tl2 =>
      exfalso
      rw [hl] at hf
      have hab : a + COOLDOWN_MS ≤ b := (List.pairwise_cons.mp hf).1 b (by simp)
      have hamem : a ∈ (activations s evs).filter
          (fun t => decide (w ≤ t) && decide (t < w + COOLDOWN_MS)) := by
        rw [hl]; simp
      have hbmem : b ∈ (activations s evs).filter
          (fun t => decide (w ≤ t) && decide (t < w + COOLDOWN_MS)) := by
        rw [hl]; simp
      have ha := List.of_mem_filter hamem
      have hb := List.of_mem_filter hbmem
      simp only [Bool.and_eq_true, decide_eq_true_eq] at ha hb
      omega

/-- Claim C2 counterexample: in the Stopped state reached by
`stopAuto` from the initialised script, a `clickIfFound` invocation is not
a no-op — the `paused` flag is the only state check in the scan path, so
with the cooldown long elapsed it queries the document, activates the
Continue button and overwrites `lastClick` and the log. -/
theorem scan_executes_when_stopped_cex :
    sessionState (stopAuto scriptInit) = SessionState.Stopped ∧
    (clickIfFound (stopAuto scriptInit) 5000 [contBtn]).2 = some contBtn ∧
    (clickIfFound (stopAuto scriptInit) 5000 [contBtn]).1.lastClick = 5000 ∧
    (stopAuto scriptInit).lastClick = 0 := by
  decide

/-- Claim C2 (amended): a `clickIfFound` invocation made while the Session
State is Paused returns as a no-op with no state change — the scan path
checks only the `paused` flag, so the guarantee holds for Paused but not
for Stopped, where a directly invoked scan still queries and may
activate. -/
theorem scan_noop_when_paused (s : St) (now : Nat) (dom : List Elem)
    (h : sessionState s = SessionState.Paused) :
    clickIfFound s now dom = (s, none) := by
  unfold sessionState at h
  by_cases hi : s.intervalId.isSome
  · simp [hi] at h
  · by_cases hp : s.paused
    · simp [clickIfFound, hp]
    · simp [hi, hp] at h

/-- Witness for the amended Claim C2 at the Paused state reached by
pausing the initialised script. -/
theorem scan_noop_when_paused_witness :
    sessionState (pauseAuto scriptInit) = SessionState.Paused ∧
    clickIfFound (pauseAuto scriptInit) 9999 [contBtn] = (pauseAuto scriptInit, none) :=
  ⟨by decide, scan_noop_when_paused (pauseAuto scriptInit) 9999 [contBtn] (by decide)⟩

/-- Claim C3: on a scan that actually reaches the matcher (not paused,
cooldown elapsed) and for which at least one qualifying element exists,
the element activated is exactly `dom.find? qualifies` — the first element
in document order that matches the selector, passes the Visibility
Predicate and whose trimmed text equals "Continue" — and it is activated;
the `Option` result makes at most one activation per scan structural. -/
theorem scan_first_qualifying (s : St) (now : Nat) (dom : List Elem)
    (hp : s.paused = false) (hc : COOLDOWN_MS ≤ now - s.lastClick)
    (hq : dom.filter qualifies ≠ []) :
    (clickIfFound s now dom).2 = dom.find? qualifies ∧
    ((clickIfFound s now dom).2).isSome = true := by
  have hcc : ¬ (now - s.lastClick < COOLDOWN_MS) := Nat.not_lt.mpr hc
  have hsnd := clickIfFound_snd s now dom
  rw [hp] at hsnd
  simp only [Bool.false_eq_true, if_false, if_neg hcc] at hsnd
  refine ⟨hsnd, ?_⟩
  rw [hsnd]
  rw [List.find?_isSome]
  obtain ⟨x, hx⟩ := List.exists_mem_of_ne_nil _ hq
  exact ⟨x, List.mem_of_mem_filter hx, List.of_mem_filter hx⟩

/-- Witness for Claim C3: a document holding a non-qualifying
"Continue Anyway" control followed by two qualifying Continue buttons —
the scan activates exactly the first qualifying one. -/
theorem scan_first_qualifying_witness :
    scriptInit.paused = false ∧
    COOLDOWN_MS ≤ 6000 - scriptInit.lastClick ∧
    [contAnywayBtn, contBtn, contBtn].filter qualifies ≠ [] ∧
    ((clickIfFound scriptInit 6000 [contAnywayBtn, contBtn, contBtn]).2 =
        [contAnywayBtn, contBtn, contBtn].find? qualifies ∧
      ((clickIfFound scriptInit 6000 [contAnywayBtn, contBtn, contBtn]).2).isSome = true) :=
  ⟨by decide, by decide, by decide,
    scan_first_qualifying scriptInit 6000 [contAnywayBtn, contBtn, contBtn]
      (by decide) (by decide) (by decide)⟩

/-- Claim C4: the Target Matcher demands exact equality of the trimmed
text with "Continue" (besides the structural and visibility checks): the
match decision is the Boolean function `qualifies`, hence deterministic;
a visible, selector-matching element labelled "Continue Anyway" does not
qualify, nor does one labelled " continue ", which trims to the
case-different "continue". -/
theorem exact_label_matching :
    (∀ el : Elem, qualifies el = true ↔
      (matchesSelector el = true ∧ isVisible el = true ∧ jsTrim el.textContent = "Continue")) ∧
    qualifies contBtn = true ∧
    qualifies contAnywayBtn = false ∧
    qualifies spacedContinueBtn = false ∧
    jsTrim spacedContinueBtn.textContent = "continue" := by
  refine ⟨?_, by decide, by decide, by decide, by decide⟩
  intro el
  simp [qualifies, Bool.and_eq_true, and_assoc]

theorem startAuto_intervalId (s : St) : (startAuto s).intervalId.isSome = true := by
  unfold startAuto startAutoE
  by_cases hi : s.intervalId.isSome
  · simp [hi]
  · simp [hi, updateButtons]

theorem startAuto_idem_aux (s : St) : startAuto (startAuto s) = startAuto s := by
  show (startAutoE (startAuto s) true).1 = startAuto s
  simp only [startAutoE]
  rw [if_pos (startAuto_intervalId s)]

/-- Claim C5: on any reachable state, `startAuto` twice equals `startAuto`
once, the resulting Session State is Running, and exactly one interval
timer and exactly one mutation-observer subscription are active — the
`intervalId` guard makes the second call a no-op, so no duplicate trigger
sources arise. -/
theorem start_idempotent (s : St) (h : Reachable s) :
    startAuto (startAuto s) = startAuto s ∧
    sessionState (startAuto s) = SessionState.Running ∧
    (startAuto s).timers = 1 ∧
    (startAuto s).observers = 1 := by
  obtain ⟨h1, h2, -, -, -⟩ := reachable_inv s h
  refine ⟨startAuto_idem_aux s, ?_, ?_, ?_⟩
  · unfold sessionState
    rw [startAuto_intervalId s]
    simp
  · unfold startAuto startAutoE
    by_cases hi : s.intervalId.isSome
    · simp only [hi, if_pos]
      rw [h1, if_pos hi]
    · simp only [hi, Bool.false_eq_true, if_false, updateButtons]
      rw [h1, if_neg hi]
      simp
  · unfold startAuto startAutoE
    by_cases hi : s.intervalId.isSome
    · simp only [hi, if_pos]
      rw [h2, if_pos hi]
    · simp only [hi, Bool.false_eq_true, if_false, updateButtons]
      rw [h2, if_neg hi]
      simp

/-- Witness for Claim C5 at the initialised (auto-started) script state. -/
theorem start_idempotent_witness :
    Reachable scriptInit ∧
    (startAuto (startAuto scriptInit) = startAuto scriptInit ∧
      sessionState (startAuto scriptInit) = SessionState.Running ∧
      (startAuto scriptInit).timers = 1 ∧
      (startAuto scriptInit).observers = 1) :=
  ⟨⟨[], rfl⟩, start_idempotent scriptInit ⟨[], rfl⟩⟩

theorem updateButtons_synced (s : St)
    (h3 : s.startDisabled = s.intervalId.isSome)
    (h4 : s.pauseDisabled = (!s.intervalId.isSome))
    (h5 : s.stopDisabled = (!s.intervalId.isSome && !s.paused)) :
    updateButtons s = s := by
  cases s
  simp only [updateButtons] at *
  simp_all

theorem st_set_paused_false (s : St) (h : s.paused = false) :
    { s with paused := false } = s := by
  cases s
  simp_all

theorem stopAuto_stopped (s : St) : sessionState (stopAuto s) = SessionState.Stopped := by
  unfold stopAuto updateButtons sessionState
  by_cases hi : s.intervalId.isSome <;> simp [hi]

/-- The state left by `clickIfFound scriptInit 3000 [contBtn]`: Running with
`lastClick = 3000`. -/
def sAfterClick : St := (clickIfFound scriptInit 3000 [contBtn]).1

/-- Claim C6 counterexample: `stopAuto` does not reset all mutable state to
its initial values — from the reachable Running state whose `lastClick` is
3000 (one activation recorded), stopping yields the Stopped state but
leaves `lastClick = 3000` and the log entry in place, while the initial
values are `lastClick = 0` and an empty log. -/
theorem stop_not_full_reset_cex :
    run scriptInit [Event.scan 3000 [contBtn]] = sAfterClick ∧
    sessionState sAfterClick = SessionState.Running ∧
    sessionState (stopAuto sAfterClick) = SessionState.Stopped ∧
    (stopAuto sAfterClick).lastClick = 3000 ∧
    (stopAuto sAfterClick).log = [3000] ∧
    initVars.lastClick = 0 ∧
    initVars.log = [] := by
  decide

/-- Claim C6 (amended): on any reachable state, `stopAuto` yields the
Stopped state with both trigger sources suspended (no active timer, no
active subscription) and is a no-op when already Stopped; it preserves
rather than resets the cooldown timestamp `lastClick` (and the activity
log), so the reset to initial values extends only to the session/trigger
variables. -/
theorem stop_transitions (s : St) (h : Reachable s) :
    sessionState (stopAuto s) = SessionState.Stopped ∧
    (stopAuto s).timers = 0 ∧
    (stopAuto s).observers = 0 ∧
    (stopAuto s).lastClick = s.lastClick ∧
    (stopAuto s).log = s.log ∧
    (sessionState s = SessionState.Stopped → stopAuto s = s) := by
  obtain ⟨h1, h2, h3, h4, h5⟩ := reachable_inv s h
  refine ⟨stopAuto_stopped s, ?_, ?_, ?_, ?_, ?_⟩
  · unfold stopAuto updateButtons
    by_cases hi : s.intervalId.isSome
    · simp only [hi, if_pos]
      rw [h1, if_pos hi]
    · simp only [hi, Bool.false_eq_true, if_false]
      rw [h1, if_neg hi]
  · unfold stopAuto updateButtons
    by_cases hi : s.intervalId.isSome
    · simp only [hi, if_pos]
      rw [h2, if_pos hi]
    · simp only [hi, Bool.false_eq_true, if_false]
      rw [h2, if_neg hi]
  · unfold stopAuto updateButtons
    by_cases hi : s.intervalId.isSome <;> simp [hi]
  · unfold stopAuto updateButtons
    by_cases hi : s.intervalId.isSome <;> simp [hi]
  · intro hst
    unfold sessionState at hst
    by_cases hi : s.intervalId.isSome
    · simp [hi] at hst
    · by_cases hpp : s.paused
      · simp [hi, hpp] at hst
      · unfold stopAuto
        simp only [hi, Bool.false_eq_true, if_false]
        rw [st_set_paused_false s (by simpa using hpp)]
        exact updateButtons_synced s h3 h4 h5

/-- Witness for the amended Claim C6 at the initialised script state. -/
theorem stop_transitions_witness :
    Reachable scriptInit ∧
    (sessionState (stopAuto scriptInit) = SessionState.Stopped ∧
      (stopAuto scriptInit).timers = 0 ∧
      (stopAuto scriptInit).observers = 0 ∧
      (stopAuto scriptInit).lastClick = scriptInit.lastClick ∧
      (stopAuto scriptInit).log = scriptInit.log ∧
      (sessionState scriptInit = SessionState.Stopped → stopAuto scriptInit = scriptInit)) :=
  ⟨⟨[], rfl⟩, stop_transitions scriptInit ⟨[], rfl⟩⟩

/-- Button enablement as a pure projection of the Session State: Start
enabled iff not Running, Pause enabled iff Running, Stop enabled iff
Running or Paused. -/
def buttonsReflect (s : St) : Prop :=
  (s.startDisabled = false ↔ sessionState s ≠ SessionState.Running) ∧
  (s.pauseDisabled = false ↔ sessionState s = SessionState.Running) ∧
  (s.stopDisabled = false ↔
    (sessionState s = SessionState.Running ∨ sessionState s = SessionState.Paused))

theorem inv_buttonsReflect (s : St) (h : StInv s) : buttonsReflect s := by
  obtain ⟨-, -, h3, h4, h5⟩ := h
  unfold buttonsReflect sessionState
  by_cases hi : s.intervalId.isSome
  · rw [h3, h4, h5, hi]
    simp [hi]
  · rw [h3, h4, h5]
    by_cases hpp : s.paused <;> simp [hi, hpp]

/-- Claim C7: after each Session Controller transition from a reachable
state — start, pause, or stop — the Control Panel's `disabled` flags are
exactly the projection of the resulting Session State: Start enabled iff
not Running, Pause enabled iff Running, Stop enabled iff Running or
Paused. -/
theorem buttons_projection (s : St) (h : Reachable s) :
    buttonsReflect (startAuto s) ∧ buttonsReflect (pauseAuto s) ∧ buttonsReflect (stopAuto s) := by
  have hinv := reachable_inv s h
  exact ⟨inv_buttonsReflect _ (inv_stepE s Event.start hinv),
    inv_buttonsReflect _ (inv_stepE s Event.pause hinv),
    inv_buttonsReflect _ (inv_stepE s Event.stop hinv)⟩

/-- Witness for Claim C7 at the initialised script state. -/
theorem buttons_projection_witness :
    Reachable scriptInit ∧
    (buttonsReflect (startAuto scriptInit) ∧ buttonsReflect (pauseAuto scriptInit) ∧
      buttonsReflect (stopAuto scriptInit)) :=
  ⟨⟨[], rfl⟩, buttons_projection scriptInit ⟨[], rfl⟩⟩

/-- Claim C8 counterexample: calling `startAuto` from the Stopped state
with the `observe` attachment failing is not atomic and does not leave the
controller Stopped — the exception propagates out of `startAuto` (second
component `true`), yet by then `setInterval` has already run, so the state
shows Running with one active timer and no active subscription. -/
theorem start_failure_cex :
    sessionState (stopAuto scriptInit) = SessionState.Stopped ∧
    (startAutoE (stopAuto scriptInit) false).2 = true ∧
    sessionState (startAutoE (stopAuto scriptInit) false).1 = SessionState.Running ∧
    (startAutoE (stopAuto scriptInit) false).1.timers = 1 ∧
    (startAutoE (stopAuto scriptInit) false).1.observers = 0 := by
  decide

/-- Claim C8 (amended): when the change-notification attachment fails
during `startAuto` from a non-running state, the exception propagates (the
call does crash), and because the interval timer is installed before the
observer is attached, the session is left Running with one more active
timer and an unchanged subscription count — not in Stopped. -/
theorem start_failure_behavior (s : St) (h : s.intervalId = none) :
    (startAutoE s false).2 = true ∧
    sessionState (startAutoE s false).1 = SessionState.Running ∧
    (startAutoE s false).1.timers = s.timers + 1 ∧
    (startAutoE s false).1.observers = s.observers := by
  unfold startAutoE
  simp [h, sessionState]

/-- Witness for the amended Claim C8 at the freshly stopped script state. -/
theorem start_failure_behavior_witness :
    (stopAuto scriptInit).intervalId = none ∧
    ((startAutoE (stopAuto scriptInit) false).2 = true ∧
      sessionState (startAutoE (stopAuto scriptInit) false).1 = SessionState.Running ∧
      (startAutoE (stopAuto scriptInit) false).1.timers = (stopAuto scriptInit).timers + 1 ∧
      (startAutoE (stopAuto scriptInit) false).1.observers = (stopAuto scriptInit).observers) :=
  ⟨by decide, start_failure_behavior (stopAuto scriptInit) (by decide)⟩

/-- Claim C9 counterexample: the script's own initialisation sequence ends
with `startAuto()`, so before any operator has pressed Start the session is
already Running, not Stopped. -/
theorem autostart_cex :
    sessionState scriptInit = SessionState.Running ∧
    sessionState scriptInit ≠ SessionState.Stopped := by
  decide

/-- Claim C9 (amended): the module variables initialise to the Stopped
state with no trigger source active, but the initialisation sequence itself
calls `startAuto()`, so once the script has loaded — still with no operator
involved — the session is Running with both trigger sources attached. -/
theorem initial_state_autostart :
    sessionState initVars = SessionState.Stopped ∧
    initVars.timers = 0 ∧
    initVars.observers = 0 ∧
    sessionState scriptInit = SessionState.Running ∧
    scriptInit.timers = 1 ∧
    scriptInit.observers = 1 := by
  decide

theorem clickIfFound_closePanel (s : St) (now : Nat) (dom : List Elem) :
    (clickIfFound (closePanel s) now dom).2 = (clickIfFound s now dom).2 ∧
    (clickIfFound (closePanel s) now dom).1 = closePanel (clickIfFound s now dom).1 := by
  unfold clickIfFound closePanel
  by_cases hp : s.paused
  · simp [hp]
  · by_cases hc : now - s.lastClick < COOLDOWN_MS
    · simp [hp, hc]
    · cases hfind : (dom.filter matchesSelector).find?
          (fun btn => isVisible btn && (jsTrim btn.textContent == "Continue")) with
      | none => simp [hp, hc, hfind]
      | some btn => simp [hp, hc, hfind]

/-- Claim C10: activating the close control only removes the panel — the
Session State, the cooldown timestamp, and both trigger-source counts are
untouched, a scan behaves identically on the closed-panel state (so a
Running session keeps scanning and activating), and the globally exposed
`window.stopAutoContinue` — which is `stopAuto` itself — still stops the
session from the closed-panel state. -/
theorem close_frame (s : St) (now : Nat) (dom : List Elem) :
    (closePanel s).panelPresent = false ∧
    sessionState (closePanel s) = sessionState s ∧
    (closePanel s).timers = s.timers ∧
    (closePanel s).observers = s.observers ∧
    (closePanel s).lastClick = s.lastClick ∧
    (clickIfFound (closePanel s) now dom).2 = (clickIfFound s now dom).2 ∧
    (clickIfFound (closePanel s) now dom).1 = closePanel (clickIfFound s now dom).1 ∧
    windowStopAutoContinue = stopAuto ∧
    sessionState (windowStopAutoContinue (closePanel s)) = SessionState.Stopped := by
  refine ⟨rfl, rfl, rfl, rfl, rfl, (clickIfFound_closePanel s now dom).1,
    (clickIfFound_closePanel s now dom).2, rfl, stopAuto_stopped (closePanel s)⟩

